import Mathlib

/-!
Verification of the 102shows core: the APA102 strip driver
(`server/drivers/apa102.py`) and the ColorCycle animation template
(`server/lightshows/templates/colorcycle.py`), shallowly embedded in Lean.

Machine bytes are modelled as `Nat` (the Python code stores plain ints in
its lists); Python `%` on a possibly negative left operand with a positive
modulus is `Int.emod`; Python exceptions are `Except` or explicit outcome
values.  Code of the repository that is not part of the two source files
(the `LEDStrip` base class and the `verifyparameters` validators) is
modelled from the spec and marked as such in its doc comment.
-/

/-! ## ProtocolEncoder: pure byte-level functions of `apa102.py` -/

/-- Python `round` (banker's rounding, half to even) of the exact rational
`num / den`, for `den > 0`.  In `led_prefix` the Python code rounds the float
`brightness / 100 * 31`; for every integer brightness in `[0, 100]` the float
result is within `2⁻⁴⁰` of the exact rational `31 * b / 100`, whose distance to
the nearest half-integer is either `0` (at `b = 50`) or at least `1/100`, so
rounding the float agrees with banker's rounding of the exact rational. -/
def pyRound (num den : Nat) : Nat :=
  let q := num / den
  let r := num % den
  if 2 * r < den then q
  else if den < 2 * r then q + 1
  else if q % 2 = 0 then q else q + 1

/-- `APA102.led_prefix(brightness)`: map the `0..100` brightness to a 5-bit
value and set the three fixed top bits. -/
def led_prefix (brightness : Nat) : Nat :=
  let brightness_byte := pyRound (brightness * 31) 100
  (brightness_byte &&& 0x1F) ||| 0xE0

/-- `APA102.spi_start_frame()`: four zero bytes. -/
def spi_start_frame : List Nat := [0, 0, 0, 0]

/-- `APA102.spi_end_frame(num_leds)`: `(num_leds + 15) // 16` zero bytes. -/
def spi_end_frame (num_leds : Nat) : List Nat :=
  List.replicate ((num_leds + 15) / 16) 0x00

/-! ## StripDriver state and operations -/

/-- The mutable state of an `APA102` driver instance: the LED count, the
frame buffer `leds` (4 bytes per pixel), and the cross-process mirror
`synced_buffer`.  The SPI handle carries no buffered state and is left out. -/
structure APA102 where
  num_leds : Nat
  leds : List Nat
  synced_buffer : List Nat
  deriving Repr, DecidableEq

/-- `APA102._set_pixel(led_num, red, green, blue)`: out-of-range indices are
ignored; otherwise the three color bytes at offsets `+3, +2, +1` of the pixel
are assigned (in that order). -/
def _set_pixel (s : APA102) (led_num : Int) (red green blue : Nat) : APA102 :=
  if led_num < 0 then s
  else if (s.num_leds : Int) ≤ led_num then s
  else
    let start_index := 4 * led_num.toNat
    let written :=
      ((s.leds.set (start_index + 3) red).set
        (start_index + 2) green).set (start_index + 1) blue
    { s with leds := written }

/-- Modelled from the spec: the public `set_pixel` of the `LEDStrip` base
class (not among the source files) delegates to `_set_pixel` with the
documented silent-no-op semantics for out-of-range indices. -/
def set_pixel (s : APA102) (led_num : Int) (red green blue : Nat) : APA102 :=
  _set_pixel s led_num red green blue

/-- `APA102.get_pixel(led_num)`: read back the buffered `(r, g, b)`. -/
def get_pixel (s : APA102) (led_num : Nat) : Nat × Nat × Nat :=
  let start_index := 4 * led_num
  (s.leds.getD (start_index + 3) 0,
   s.leds.getD (start_index + 2) 0,
   s.leds.getD (start_index + 1) 0)

/-- `APA102._set_brightness(led_num, brightness)`: write the prefix byte of
pixel `led_num`. -/
def _set_brightness (s : APA102) (led_num : Nat) (brightness : Nat) : APA102 :=
  { s with leds := s.leds.set (4 * led_num) ( led_prefix brightness) }

/-- Modelled from the spec: `LEDStrip.set_global_brightness` (base class, not
among the source files) sets every pixel's brightness to the given value. -/
def set_global_brightness (s : APA102) (brightness : Nat) : APA102 :=
  (List.range s.num_leds).foldl (fun st i => _set_brightness st i brightness) s

/-- `APA102.__init__(num_leds, _, initial_brightness)` after the transport is
opened: a zeroed buffer of `4 * num_leds` bytes (`[0,0,0,0] * num_leds`),
every pixel's brightness set to `initial_brightness`, and the mirror buffer
initialised to a copy of the frame buffer. -/
def mk_strip (num_leds : Nat) (initial_brightness : Nat) : APA102 :=
  let s : APA102 :=
    { num_leds := num_leds
      leds := List.replicate (4 * num_leds) 0
      synced_buffer := [] }
  let s := set_global_brightness s initial_brightness
  { s with synced_buffer := s.leds }

/-- `APA102.show()`: the byte sequence transmitted over SPI, i.e. the
concatenation of the three `xfer2` payloads: start frame, frame buffer,
end frame. -/
def show_bytes (s : APA102) : List Nat :=
  spi_start_frame ++ s.leds ++ spi_end_frame s.num_leds

/-- `APA102.sync_down()`: copy the mirror buffer element-wise into the frame
buffer (`for i, _ in enumerate(self.synced_buffer): self.leds[i] = ...`). -/
def sync_down (s : APA102) : APA102 :=
  let copied :=
    (List.range s.synced_buffer.length).foldl
      (fun l i => l.set i (s.synced_buffer.getD i 0)) s.leds
  { s with leds := copied }

/-- `APA102.sync_up()`: copy the frame buffer element-wise into the mirror. -/
def sync_up (s : APA102) : APA102 :=
  let copied :=
    (List.range s.leds.length).foldl
      (fun l i => l.set i (s.leds.getD i 0)) s.synced_buffer
  { s with synced_buffer := copied }

/-- `APA102.rotate(positions)`: cut the buffer at byte offset
`4 * (positions % num_leds)` (Python `%`, hence non-negative for a positive
LED count) and swap the two parts. -/
def rotate (s : APA102) (positions : Int) : APA102 :=
  let cutoff : Nat := (4 * (positions % (s.num_leds : Int))).toNat
  { s with leds := s.leds.drop cutoff ++ s.leds.take cutoff }

/-! ## Theorems about the driver -/

/-- C4: `show()` transmits exactly the start frame, then the frame buffer
with each pixel laid out as `[prefix, blue, green, red]` in index order, then
`ceil(num_leds/16)` zero bytes; on the concrete scenario (`num_leds = 3`,
`initial_brightness = 100`, three `set_pixel` calls) the transmitted bytes
are `[0,0,0,0, 0xFF,0,0,255, 0xFF,0,255,0, 0xFF,255,0,0, 0]`. -/
theorem C4_show_wire_format :
    (∀ s : APA102, show_bytes s = spi_start_frame ++ s.leds ++ spi_end_frame s.num_leds) ∧
    show_bytes
        (set_pixel (set_pixel (set_pixel (mk_strip 3 100) 0 255 0 0) 1 0 255 0) 2 0 0 255) =
      [0, 0, 0, 0,
       0xFF, 0, 0, 255,
       0xFF, 0, 255, 0,
       0xFF, 255, 0, 0,
       0] := by
  exact ⟨fun s => rfl, by decide⟩

/-- C5: for every brightness `b ≤ 100` the prefix byte has its three top bits
set and its low five bits equal to `round(b * 31 / 100)`.  Rounding to the
nearest integer is written as `(2 * (b * 31) + 100) / 200` (half rounded up);
the only half-integer case in range is `b = 50`, where rounding half up,
half down and Python's half-to-even all give `16`. -/
theorem C5_led_prefix_bits (b : Nat) (hb : b ≤ 100) :
    led_prefix b &&& 0xE0 = 0xE0 ∧
    led_prefix b &&& 0x1F = (2 * (b * 31) + 100) / 200 := by
  have h : ∀ c < 101,
      led_prefix c &&& 0xE0 = 0xE0 ∧
      led_prefix c &&& 0x1F = (2 * (c * 31) + 100) / 200 := by decide
  exact h b (by omega)

/-- Witness for C5 at the half-integer case `b = 50`. -/
theorem C5_led_prefix_bits_witness :
    50 ≤ 100 ∧
    ( led_prefix 50 &&& 0xE0 = 0xE0 ∧
     led_prefix 50 &&& 0x1F = (2 * (50 * 31) + 100) / 200) :=
  ⟨by decide, C5_led_prefix_bits 50 (by decide)⟩

/-- C7: `set_pixel` with an index below `0` or at least `num_leds` returns
the state unchanged (in particular the frame buffer is byte-for-byte
unchanged) and raises nothing (the embedding is a total function). -/
theorem C7_set_pixel_out_of_range (s : APA102) (i : Int) (r g b : Nat)
    (h : i < 0 ∨ (s.num_leds : Int) ≤ i) :
    set_pixel s i r g b = s := by
  unfold set_pixel _set_pixel
  rcases h with h | h
  · rw [if_pos h]
  · by_cases h0 : i < 0
    · rw [if_pos h0]
    · rw [if_neg h0, if_pos h]

/-- Witness for C7: index 5 on a 3-LED strip. -/
theorem C7_set_pixel_out_of_range_witness :
    ((5 : Int) < 0 ∨ (((mk_strip 3 100).num_leds : Nat) : Int) ≤ 5) ∧
    set_pixel (mk_strip 3 100) 5 1 2 3 = mk_strip 3 100 :=
  ⟨by decide, C7_set_pixel_out_of_range (mk_strip 3 100) 5 1 2 3 (by decide)⟩

/-- C8: for `1 ≤ num_leds ≤ 1024` the end frame consists of zero bytes only
and its length is exactly `⌈num_leds / 16⌉`, characterised as the unique `L`
with `num_leds ≤ 16 * L < num_leds + 16`. -/
theorem C8_end_frame_length (n : Nat) (h1 : 1 ≤ n) (h2 : n ≤ 1024) :
    n ≤ 16 * (spi_end_frame n).length ∧
    16 * (spi_end_frame n).length < n + 16 ∧
    ∀ x ∈ spi_end_frame n, x = 0 := by
  refine ⟨?_, ?_, ?_⟩
  · simp only [spi_end_frame, List.length_replicate]
    omega
  · simp only [spi_end_frame, List.length_replicate]
    omega
  · intro x hx
    exact List.eq_of_mem_replicate hx

/-- Witness for C8 at `num_leds = 3`: one zero byte. -/
theorem C8_end_frame_length_witness :
    1 ≤ 3 ∧ 3 ≤ 1024 ∧
    (3 ≤ 16 * (spi_end_frame 3).length ∧
     16 * (spi_end_frame 3).length < 3 + 16 ∧
     ∀ x ∈ spi_end_frame 3, x = 0) :=
  ⟨by decide, by decide, C8_end_frame_length 3 (by decide) (by decide)⟩

/-- A fold of `_set_brightness` over any index list keeps the buffer length
and the LED count. -/
lemma foldl_set_brightness_preserves (b : Nat) (L : List Nat) (s : APA102) :
    (L.foldl (fun st i => _set_brightness st i b) s).leds.length = s.leds.length ∧
    (L.foldl (fun st i => _set_brightness st i b) s).num_leds = s.num_leds := by
  induction L generalizing s with
  | nil => exact ⟨rfl, rfl⟩
  | cons x xs ih =>
    simp only [List.foldl_cons]
    rcases ih (_set_brightness s x b) with ⟨h1, h2⟩
    refine ⟨?_, h2⟩
    rw [h1]
    simp [_set_brightness]

/-- A fold of element-wise `List.set` copies keeps the list length. -/
lemma foldl_set_preserves_length (src : List Nat) (L : List Nat) (l : List Nat) :
    (L.foldl (fun acc i => acc.set i (src.getD i 0)) l).length = l.length := by
  induction L generalizing l with
  | nil => rfl
  | cons x xs ih =>
    simp only [List.foldl_cons]
    rw [ih]
    simp

/-- C9: the frame buffer has exactly `4 * num_leds` bytes at construction,
and every driver operation (`_set_pixel`, `_set_brightness`, `rotate` with
any argument, `sync_down`) preserves both the buffer length and the LED
count, so `len(buffer) == 4 * num_leds` holds at all times. -/
theorem C9_buffer_length_invariant :
    (∀ n b, (mk_strip n b).leds.length = 4 * n ∧ (mk_strip n b).num_leds = n) ∧
    (∀ s i r g b, (_set_pixel s i r g b).leds.length = s.leds.length ∧
      (_set_pixel s i r g b).num_leds = s.num_leds) ∧
    (∀ s i b, (_set_brightness s i b).leds.length = s.leds.length ∧
      (_set_brightness s i b).num_leds = s.num_leds) ∧
    (∀ s p, (rotate s p).leds.length = s.leds.length ∧
      (rotate s p).num_leds = s.num_leds) ∧
    (∀ s, (sync_down s).leds.length = s.leds.length ∧
      (sync_down s).num_leds = s.num_leds) := by
  refine ⟨?_, ?_, ?_, ?_, ?_⟩
  · intro n b
    have h := foldl_set_brightness_preserves b (List.range n)
      { num_leds := n, leds := List.replicate (4 * n) 0, synced_buffer := [] }
    simp only [List.length_replicate] at h
    exact ⟨h.1, h.2⟩
  · intro s i r g b
    unfold _set_pixel
    by_cases h0 : i < 0
    · rw [if_pos h0]; exact ⟨rfl, rfl⟩
    · rw [if_neg h0]
      by_cases h1 : (s.num_leds : Int) ≤ i
      · rw [if_pos h1]; exact ⟨rfl, rfl⟩
      · rw [if_neg h1]
        constructor
        · simp
        · rfl
  · intro s i b
    constructor
    · simp [_set_brightness]
    · rfl
  · intro s p
    constructor
    · simp only [rotate, List.length_append, List.length_drop, List.length_take]
      omega
    · rfl
  · intro s
    exact ⟨foldl_set_preserves_length s.synced_buffer _ s.leds, rfl⟩

/-- `rotate` is `List.rotate` at the normalized byte cutoff. -/
lemma rotate_leds_eq (s : APA102) (p : Int) (hn : 0 < s.num_leds)
    (hlen : s.leds.length = 4 * s.num_leds) :
    (rotate s p).leds = s.leds.rotate (4 * (p % (s.num_leds : Int)).toNat) := by
  have hne : (s.num_leds : Int) ≠ 0 := by exact_mod_cast hn.ne'
  have h0 : (0 : Int) ≤ p % (s.num_leds : Int) := Int.emod_nonneg p hne
  have h1 : p % (s.num_leds : Int) < (s.num_leds : Int) :=
    Int.emod_lt_of_pos p (by exact_mod_cast hn)
  have hc : (4 * (p % (s.num_leds : Int))).toNat
      = 4 * (p % (s.num_leds : Int)).toNat := by omega
  have hle : 4 * (p % (s.num_leds : Int)).toNat ≤ s.leds.length := by omega
  simp only [rotate, hc]
  exact (List.rotate_eq_drop_append_take hle).symm

/-- Python's `%` sends `p` and `-p` to residues summing to `0` or to the
modulus. -/
lemma emod_add_neg_emod (p n : Int) (hn : 0 < n) :
    p % n + (-p) % n = 0 ∨ p % n + (-p) % n = n := by
  have hd := Int.ediv_add_emod p n
  have hkey : -p = -(p % n) + n * (-(p / n)) := by
    rw [mul_neg]
    linarith
  have key : (-p) % n = (-(p % n)) % n := by
    rw [hkey, Int.add_mul_emod_self_left]
  have h0 : (0 : Int) ≤ p % n := Int.emod_nonneg p hn.ne'
  have h1 : p % n < n := Int.emod_lt_of_pos p hn
  by_cases hz : p % n = 0
  · left
    rw [key, hz]
    simp
  · right
    have key2 : (-(p % n)) % n = n - p % n := by
      have : -(p % n) = (n - p % n) + n * (-1) := by ring
      rw [this, Int.add_mul_emod_self_left]
      exact Int.emod_eq_of_lt (by omega) (by omega)
    rw [key, key2]
    ring

/-- C6: `rotate(p)` followed by `rotate(-p)` restores the frame buffer
byte-for-byte, for every `p` and every strip with a positive LED count whose
buffer has its invariant length; the cutoff `4 * (p mod num_leds)` is
non-negative by Python's `%` semantics and the buffer is reordered as
`buffer[cutoff:] ++ buffer[:cutoff]` (definition `rotate`). -/
theorem C6_rotate_involutive (s : APA102) (p : Int) (hn : 0 < s.num_leds)
    (hlen : s.leds.length = 4 * s.num_leds) :
    (rotate (rotate s p) (-p)).leds = s.leds := by
  have hnum : (rotate s p).num_leds = s.num_leds := rfl
  have hlen1 : (rotate s p).leds.length = 4 * s.num_leds := by
    simp only [rotate, List.length_append, List.length_drop, List.length_take]
    omega
  have h2 := rotate_leds_eq (rotate s p) (-p) (by rw [hnum]; exact hn)
    (by rw [hnum]; exact hlen1)
  rw [h2, hnum, rotate_leds_eq s p hn hlen, List.rotate_rotate]
  have h0a : (0 : Int) ≤ p % (s.num_leds : Int) :=
    Int.emod_nonneg p (by exact_mod_cast hn.ne')
  have h0b : (0 : Int) ≤ (-p) % (s.num_leds : Int) :=
    Int.emod_nonneg (-p) (by exact_mod_cast hn.ne')
  rcases emod_add_neg_emod p (s.num_leds : Int) (by exact_mod_cast hn) with h | h
  · have hz : 4 * (p % (s.num_leds : Int)).toNat
        + 4 * ((-p) % (s.num_leds : Int)).toNat = 0 := by omega
    rw [hz, List.rotate_zero]
  · have hsum : 4 * (p % (s.num_leds : Int)).toNat
        + 4 * ((-p) % (s.num_leds : Int)).toNat = s.leds.length := by omega
    rw [hsum, List.rotate_length]

/-- Witness for C6: an 8-byte buffer over 2 LEDs, rotated by 3 and back. -/
theorem C6_rotate_involutive_witness :
    0 < (⟨2, [1, 2, 3, 4, 5, 6, 7, 8], []⟩ : APA102).num_leds ∧
    (⟨2, [1, 2, 3, 4, 5, 6, 7, 8], []⟩ : APA102).leds.length
      = 4 * (⟨2, [1, 2, 3, 4, 5, 6, 7, 8], []⟩ : APA102).num_leds ∧
    (rotate (rotate (⟨2, [1, 2, 3, 4, 5, 6, 7, 8], []⟩ : APA102) 3) (-3)).leds
      = (⟨2, [1, 2, 3, 4, 5, 6, 7, 8], []⟩ : APA102).leds :=
  ⟨by decide, by decide,
    C6_rotate_involutive (⟨2, [1, 2, 3, 4, 5, 6, 7, 8], []⟩ : APA102) 3
      (by decide) (by decide)⟩

/-- Reading a list after setting a different position is unchanged. -/
lemma get?_set_other (x : Nat) (l : List Nat) (m n : Nat) (h : m ≠ n) :
    (l.set m x).get? n = l.get? n :=
  List.get?_set_ne x l h

/-- C10: for a valid index `i`, `set_pixel` writes exactly the three color
bytes of pixel `i` (red at `4i+3`, green at `4i+2`, blue at `4i+1`), leaving
the prefix byte `4i` and every other byte unchanged; `_set_brightness` writes
exactly the prefix byte `4i`, leaving every other byte unchanged. -/
theorem C10_pixel_ops_touch_only_their_bytes (s : APA102) (i r g b br : Nat)
    (hi : i < s.num_leds) (hlen : s.leds.length = 4 * s.num_leds) :
    ((_set_pixel s (i : Int) r g b).leds.get? (4 * i) = s.leds.get? (4 * i)) ∧
    ((_set_pixel s (i : Int) r g b).leds.get? (4 * i + 3) = some r) ∧
    ((_set_pixel s (i : Int) r g b).leds.get? (4 * i + 2) = some g) ∧
    ((_set_pixel s (i : Int) r g b).leds.get? (4 * i + 1) = some b) ∧
    (∀ j, j ≠ 4 * i + 1 → j ≠ 4 * i + 2 → j ≠ 4 * i + 3 →
      (_set_pixel s (i : Int) r g b).leds.get? j = s.leds.get? j) ∧
    ((_set_brightness s i br).leds.get? (4 * i) = some ( led_prefix br)) ∧
    (∀ j, j ≠ 4 * i → (_set_brightness s i br).leds.get? j = s.leds.get? j) := by
  have hbuf : (_set_pixel s (i : Int) r g b).leds
      = ((s.leds.set (4 * i + 3) r).set (4 * i + 2) g).set (4 * i + 1) b := by
    unfold _set_pixel
    rw [if_neg (by omega), if_neg (by exact_mod_cast Nat.not_le.mpr hi)]
    simp
  have hbr : (_set_brightness s i br).leds = s.leds.set (4 * i) ( led_prefix br) := rfl
  refine ⟨?_, ?_, ?_, ?_, ?_, ?_, ?_⟩
  · rw [hbuf, get?_set_other b _ _ _ (by omega), get?_set_other g _ _ _ (by omega),
      get?_set_other r _ _ _ (by omega)]
  · rw [hbuf, get?_set_other b _ _ _ (by omega), get?_set_other g _ _ _ (by omega)]
    exact List.get?_set_eq_of_lt r (by omega)
  · rw [hbuf, get?_set_other b _ _ _ (by omega)]
    exact List.get?_set_eq_of_lt g (by simp only [List.length_set]; omega)
  · rw [hbuf]
    exact List.get?_set_eq_of_lt b (by simp only [List.length_set]; omega)
  · intro j h1 h2 h3
    rw [hbuf, get?_set_other b _ _ _ (Ne.symm h1), get?_set_other g _ _ _ (Ne.symm h2),
      get?_set_other r _ _ _ (Ne.symm h3)]
  · rw [hbr]
    exact List.get?_set_eq_of_lt _ (by omega)
  · intro j hj
    rw [hbr, get?_set_other _ _ _ _ (Ne.symm hj)]

/-- Witness for C10: pixel 1 of a 2-pixel strip. -/
theorem C10_pixel_ops_touch_only_their_bytes_witness :
    1 < (⟨2, [10, 11, 12, 13, 20, 21, 22, 23], []⟩ : APA102).num_leds ∧
    (⟨2, [10, 11, 12, 13, 20, 21, 22, 23], []⟩ : APA102).leds.length
      = 4 * (⟨2, [10, 11, 12, 13, 20, 21, 22, 23], []⟩ : APA102).num_leds ∧
    (((_set_pixel (⟨2, [10, 11, 12, 13, 20, 21, 22, 23], []⟩ : APA102)
        ((1 : Nat) : Int) 1 2 3).leds.get? (4 * 1)
      = (⟨2, [10, 11, 12, 13, 20, 21, 22, 23], []⟩ : APA102).leds.get? (4 * 1)) ∧
     ((_set_pixel (⟨2, [10, 11, 12, 13, 20, 21, 22, 23], []⟩ : APA102)
        ((1 : Nat) : Int) 1 2 3).leds.get? (4 * 1 + 3) = some 1) ∧
     ((_set_pixel (⟨2, [10, 11, 12, 13, 20, 21, 22, 23], []⟩ : APA102)
        ((1 : Nat) : Int) 1 2 3).leds.get? (4 * 1 + 2) = some 2) ∧
     ((_set_pixel (⟨2, [10, 11, 12, 13, 20, 21, 22, 23], []⟩ : APA102)
        ((1 : Nat) : Int) 1 2 3).leds.get? (4 * 1 + 1) = some 3) ∧
     (∀ j, j ≠ 4 * 1 + 1 → j ≠ 4 * 1 + 2 → j ≠ 4 * 1 + 3 →
       (_set_pixel (⟨2, [10, 11, 12, 13, 20, 21, 22, 23], []⟩ : APA102)
          ((1 : Nat) : Int) 1 2 3).leds.get? j
         = (⟨2, [10, 11, 12, 13, 20, 21, 22, 23], []⟩ : APA102).leds.get? j) ∧
     ((_set_brightness (⟨2, [10, 11, 12, 13, 20, 21, 22, 23], []⟩ : APA102)
        1 100).leds.get? (4 * 1) = some ( led_prefix 100)) ∧
     (∀ j, j ≠ 4 * 1 →
       (_set_brightness (⟨2, [10, 11, 12, 13, 20, 21, 22, 23], []⟩ : APA102)
          1 100).leds.get? j
         = (⟨2, [10, 11, 12, 13, 20, 21, 22, 23], []⟩ : APA102).leds.get? j)) :=
  ⟨by decide, by decide,
    C10_pixel_ops_touch_only_their_bytes
      (⟨2, [10, 11, 12, 13, 20, 21, 22, 23], []⟩ : APA102) 1 1 2 3 100
      (by decide) (by decide)⟩

/-! ## AnimationEngine: `colorcycle.py` configuration -/

/-- Exceptions raised by the ColorCycle configuration code:
`InvalidParameters(msg)` or `InvalidParameters.unknown(name)`. -/
inductive CCError where
  | invalidParameters (msg : String)
  | unknownParameter (name : String)
  deriving Repr, DecidableEq

/-- The three configurable attributes of a `ColorCycle` show.  `None` (here
`none`) is the unset state produced by `init_parameters`; `pause_sec` may be
any numeric (modelled as `ℚ`), the other two are integers. -/
structure ColorCycleState where
  pause_sec : Option ℚ
  num_steps_per_cycle : Option Int
  num_cycles : Option Int
  deriving Repr, DecidableEq

/-- `ColorCycle.init_parameters()`: all three parameters unset. -/
def init_parameters : ColorCycleState :=
  { pause_sec := none, num_steps_per_cycle := none, num_cycles := none }

/-- `ColorCycle.set_parameter(param_name, value)`.  The two validators
(`verify.not_negative_numeric`, `verify.positive_integer`) live in
`lightshows/utilities/verifyparameters.py`, which is not among the source
files; they are modelled from the spec: a non-negative numeric is a rational
`≥ 0`, a positive integer is a value with denominator 1 and `> 0`.  A failed
validation raises `InvalidParameters` naming the parameter; an unknown name
raises `InvalidParameters.unknown(param_name)`. -/
def set_parameter (st : ColorCycleState) (param_name : String) (value : ℚ) :
    Except CCError ColorCycleState :=
  if param_name = "pause_sec" then
    if 0 ≤ value then .ok { st with pause_sec := some value }
    else .error (.invalidParameters "pause_sec")
  else if param_name = "num_steps_per_cycle" then
    if value.den = 1 ∧ 0 < value then
      .ok { st with num_steps_per_cycle := some value.num }
    else .error (.invalidParameters "num_steps_per_cycle")
  else if param_name = "num_cycles" then
    if value.den = 1 ∧ 0 < value then
      .ok { st with num_cycles := some value.num }
    else .error (.invalidParameters "num_cycles")
  else .error (.unknownParameter param_name)

/-- Python truthiness of an optional numeric: `None` and `0` are falsy. -/
def truthyQ : Option ℚ → Bool
  | none => false
  | some v => v != 0

/-- Python truthiness of an optional integer: `None` and `0` are falsy. -/
def truthyZ : Option Int → Bool
  | none => false
  | some v => v != 0

/-- `ColorCycle.check_runnable()`: the code tests `not self.pause_sec` (and
likewise for the other two), i.e. Python truthiness, not `is None`. -/
def check_runnable (st : ColorCycleState) : Except CCError Unit :=
  if !truthyQ st.pause_sec then
    .error (.invalidParameters "Missing parameter \"pause_sec\"!")
  else if !truthyZ st.num_steps_per_cycle then
    .error (.invalidParameters "Missing parameter \"num_steps_per_cycle\"!")
  else if !truthyZ st.num_cycles then
    .error (.invalidParameters "Missing parameter \"num_cycles\"!")
  else .ok ()

/-- C1 (code defect): `pause_sec = 0` is accepted by `set_parameter` — the
non-negative-numeric validator allows zero — yet `check_runnable` on the
fully configured state still raises `Missing parameter "pause_sec"!`,
because it tests Python truthiness (`not self.pause_sec`) instead of
`is None`; the claim says it must succeed once all three are configured. -/
theorem C1_check_runnable_rejects_zero_pause :
    Except.bind (set_parameter init_parameters "pause_sec" 0) (fun st1 =>
      Except.bind (set_parameter st1 "num_steps_per_cycle" 1) (fun st2 =>
        set_parameter st2 "num_cycles" 1))
      = Except.ok ⟨some 0, some 1, some 1⟩ ∧
    check_runnable ⟨some 0, some 1, some 1⟩
      = Except.error (.invalidParameters "Missing parameter \"pause_sec\"!") :=
  ⟨by rfl, by rfl⟩

/-! ## AnimationEngine: the `run()` lifecycle of `colorcycle.py` -/

/-- Outcome of a call with no interesting return value: normal return,
`KeyboardInterrupt` (cancellation), or any other exception. -/
inductive Outcome where
  | ok
  | cancel
  | error
  deriving Repr, DecidableEq

/-- Outcome of a call to the `update` hook: normal return carrying the
`needRepaint` boolean, `KeyboardInterrupt`, or any other exception. -/
inductive UpdOutcome where
  | ok (needRepaint : Bool)
  | cancel
  | error
  deriving Repr, DecidableEq

/-- One observable action of a `run()` execution. -/
inductive Event where
  | initCall
  | showCall
  | updateCall (step cycle : Nat)
  | sleepCall (step cycle : Nat)
  | shutdownHook
  | clearStrip
  | releaseTransport
  deriving Repr, DecidableEq

/-- The environment a `run()` executes against: what each hook call, each
transmission and each timed pause does.  `initOutcome` covers the init hook,
`firstShow` the transmission right after it, `update` the hook at each
`(step, cycle)`, `showAt` the conditional transmission after it, and
`sleepCancel` tells whether `KeyboardInterrupt` arrives during the pause. -/
structure Behavior where
  initOutcome : Outcome
  firstShow : Outcome
  update : Nat → Nat → UpdOutcome
  showAt : Nat → Nat → Outcome
  sleepCancel : Nat → Nat → Bool

/-- `ColorCycle.cleanup()`: `shutdown(strip)`, then `strip.clearStrip()`
(modelled from the spec: the base-class `clearStrip`, which is not among the
source files, turns the whole buffer off and transmits it — the spec's
"clear" and "show()" steps), then `strip.cleanup()`, which releases the
transport. -/
def cleanup_events : List Event :=
  [.shutdownHook, .clearStrip, .showCall, .releaseTransport]

/-- How the inner `for currentStep in range(...)` loop ends: all steps done,
interrupted by `KeyboardInterrupt`, or aborted by another exception. -/
inductive LoopSig where
  | done
  | cancel
  | error
  deriving Repr, DecidableEq

/-- The body of one cycle: `update`, conditional `show`, `sleep`, for each
remaining step index. -/
def stepLoop (b : Behavior) (cycle : Nat) : List Nat → List Event × LoopSig
  | [] => ([], .done)
  | s :: rest =>
    match b.update s cycle with
    | .cancel => ([.updateCall s cycle], .cancel)
    | .error => ([.updateCall s cycle], .error)
    | .ok rep =>
      if rep then
        match b.showAt s cycle with
        | .cancel => ([.updateCall s cycle, .showCall], .cancel)
        | .error => ([.updateCall s cycle, .showCall], .error)
        | .ok =>
          if b.sleepCancel s cycle then
            ([.updateCall s cycle, .showCall, .sleepCall s cycle], .cancel)
          else
            let next := stepLoop b cycle rest
            (.updateCall s cycle :: .showCall :: .sleepCall s cycle :: next.1, next.2)
      else
        if b.sleepCancel s cycle then
          ([.updateCall s cycle, .sleepCall s cycle], .cancel)
        else
          let next := stepLoop b cycle rest
          (.updateCall s cycle :: .sleepCall s cycle :: next.1, next.2)

/-- The `while True` loop of `run()`: one cycle per iteration, then
`currentCycle += 1` and the `num_cycles != -1 and currentCycle >= num_cycles`
exit test.  `fuel` bounds the number of iterations unrolled; `none` means the
execution is still looping (as it truly does for `num_cycles = -1` with
hooks that never raise). -/
def cycleLoop (b : Behavior) (numSteps : Nat) (numCycles : Int) :
    Nat → Nat → Option (List Event × LoopSig)
  | 0, _ => none
  | fuel + 1, cycle =>
    let this := stepLoop b cycle (List.range numSteps)
    match this.2 with
    | .cancel => some (this.1, .cancel)
    | .error => some (this.1, .error)
    | .done =>
      if numCycles ≠ -1 ∧ numCycles ≤ ((cycle + 1 : Nat) : Int) then
        some (this.1, .done)
      else
        match cycleLoop b numSteps numCycles fuel (cycle + 1) with
        | none => none
        | some next => some (this.1 ++ next.1, next.2)

/-- How `run()` ends: a normal return (which includes a caught
`KeyboardInterrupt`) or an exception propagating out. -/
inductive RunExit where
  | finished
  | errored
  deriving Repr, DecidableEq

/-- `ColorCycle.run()`: `init`, one `show`, the cycle loop, then `cleanup()`
at the end of the `try` body; `except KeyboardInterrupt` also calls
`cleanup()`; any other exception propagates without cleanup. -/
def run (b : Behavior) (numSteps : Nat) (numCycles : Int) (fuel : Nat) :
    Option (List Event × RunExit) :=
  match b.initOutcome with
  | .cancel => some ([.initCall] ++ cleanup_events, .finished)
  | .error => some ([.initCall], .errored)
  | .ok =>
    match b.firstShow with
    | .cancel => some ([.initCall, .showCall] ++ cleanup_events, .finished)
    | .error => some ([.initCall, .showCall], .errored)
    | .ok =>
      match cycleLoop b numSteps numCycles fuel 0 with
      | none => none
      | some (evs, .done) =>
          some (.initCall :: .showCall :: evs ++ cleanup_events, .finished)
      | some (evs, .cancel) =>
          some (.initCall :: .showCall :: evs ++ cleanup_events, .finished)
      | some (evs, .error) =>
          some (.initCall :: .showCall :: evs, .errored)

/-- The `(step, cycle)` argument of an update-hook event, if it is one. -/
def updateArgs : Event → Option (Nat × Nat)
  | .updateCall s c => some (s, c)
  | _ => none

/-- The inner step loop never performs any teardown action. -/
lemma stepLoop_no_shutdown (b : Behavior) (cycle : Nat) (steps : List Nat) :
    Event.shutdownHook ∉ (stepLoop b cycle steps).1 := by
  induction steps with
  | nil => simp [stepLoop]
  | cons s rest ih =>
    simp only [stepLoop]
    cases hu : b.update s cycle with
    | cancel => simp
    | error => simp
    | ok rep =>
      cases rep
      · cases hc : b.sleepCancel s cycle
        · simp [hc, ih]
        · simp [hc]
      · cases hs : b.showAt s cycle with
        | ok =>
          cases hc : b.sleepCancel s cycle
          · simp [hc, ih]
          · simp [hc]
        | cancel => simp
        | error => simp

/-- The cycle loop never performs any teardown action. -/
lemma cycleLoop_no_shutdown (b : Behavior) (numSteps : Nat) (numCycles : Int) :
    ∀ (fuel cycle : Nat) (evs : List Event) (sig : LoopSig),
      cycleLoop b numSteps numCycles fuel cycle = some (evs, sig) →
      Event.shutdownHook ∉ evs := by
  intro fuel
  induction fuel with
  | zero =>
    intro cycle evs sig h
    simp [cycleLoop] at h
  | succ fuel ih =>
    intro cycle evs sig h
    simp only [cycleLoop] at h
    cases h2 : (stepLoop b cycle (List.range numSteps)).2 with
    | cancel =>
      simp only [h2] at h
      obtain ⟨he, _⟩ := Prod.mk.injEq .. ▸ Option.some.inj h
      exact he ▸ stepLoop_no_shutdown b cycle (List.range numSteps)
    | error =>
      simp only [h2] at h
      obtain ⟨he, _⟩ := Prod.mk.injEq .. ▸ Option.some.inj h
      exact he ▸ stepLoop_no_shutdown b cycle (List.range numSteps)
    | done =>
      simp only [h2] at h
      split at h
      · obtain ⟨he, _⟩ := Prod.mk.injEq .. ▸ Option.some.inj h
        exact he ▸ stepLoop_no_shutdown b cycle (List.range numSteps)
      · cases hrec : cycleLoop b numSteps numCycles fuel (cycle + 1) with
        | none => rw [hrec] at h; exact absurd h (by simp)
        | some next =>
          rw [hrec] at h
          obtain ⟨ne, ns⟩ := next
          obtain ⟨he, _⟩ := Prod.mk.injEq .. ▸ Option.some.inj h
          rw [← he]
          intro hmem
          rcases List.mem_append.mp hmem with hm | hm
          · exact stepLoop_no_shutdown b cycle (List.range numSteps) hm
          · exact ih (cycle + 1) ne ns hrec hm

/-- Counterexample to C2 as stated: when the `update` hook raises an
exception that is not `KeyboardInterrupt`, `run()` propagates it (the
`except` clause only catches `KeyboardInterrupt`, and there is no `finally`),
and `cleanup()` never executes: the trace contains no teardown action. -/
theorem C2_error_skips_cleanup_counterexample :
    run ⟨.ok, .ok, fun _ _ => .error, fun _ _ => .ok, fun _ _ => false⟩ 1 1 1
      = some ([.initCall, .showCall, .updateCall 0 0], .errored) ∧
    ([Event.initCall, Event.showCall, Event.updateCall 0 0].count
        Event.shutdownHook) = 0 :=
  ⟨rfl, rfl⟩

/-- C2 (amended): on every terminating execution of `run()` that completes
normally or is cancelled by `KeyboardInterrupt` at any point, `cleanup()`
executes exactly once, as the final, contiguous block
`[shutdown, clear, show, release]` of the trace; when any other error
propagates out of a hook or out of `show()`, `cleanup()` does not run at
all. -/
theorem C2_cleanup_exactly_once_unless_error
    (b : Behavior) (numSteps : Nat) (numCycles : Int) (fuel : Nat)
    (evs : List Event) (ex : RunExit)
    (h : run b numSteps numCycles fuel = some (evs, ex)) :
    (ex = .finished →
      ∃ pre, evs = pre ++ cleanup_events ∧ Event.shutdownHook ∉ pre) ∧
    (ex = .errored → Event.shutdownHook ∉ evs) := by
  unfold run at h
  cases hi : b.initOutcome with
  | cancel =>
    rw [hi] at h
    obtain ⟨he, hx⟩ := Prod.mk.injEq .. ▸ Option.some.inj h
    constructor
    · intro _
      exact ⟨[.initCall], by rw [← he], by simp⟩
    · intro hexe
      rw [← hx] at hexe
      exact absurd hexe (by simp)
  | error =>
    rw [hi] at h
    obtain ⟨he, hx⟩ := Prod.mk.injEq .. ▸ Option.some.inj h
    constructor
    · intro hexe
      rw [← hx] at hexe
      exact absurd hexe (by simp)
    · intro _
      rw [← he]
      simp
  | ok =>
    rw [hi] at h
    cases hf : b.firstShow with
    | cancel =>
      rw [hf] at h
      obtain ⟨he, hx⟩ := Prod.mk.injEq .. ▸ Option.some.inj h
      constructor
      · intro _
        exact ⟨[.initCall, .showCall], by rw [← he], by simp⟩
      · intro hexe
        rw [← hx] at hexe
        exact absurd hexe (by simp)
    | error =>
      rw [hf] at h
      obtain ⟨he, hx⟩ := Prod.mk.injEq .. ▸ Option.some.inj h
      constructor
      · intro hexe
        rw [← hx] at hexe
        exact absurd hexe (by simp)
      · intro _
        rw [← he]
        simp
    | ok =>
      rw [hf] at h
      cases hc : cycleLoop b numSteps numCycles fuel 0 with
      | none => rw [hc] at h; exact absurd h (by simp)
      | some res =>
        obtain ⟨levs, sig⟩ := res
        have hno : Event.shutdownHook ∉ levs :=
          cycleLoop_no_shutdown b numSteps numCycles fuel 0 levs sig hc
        rw [hc] at h
        cases sig with
        | done =>
          obtain ⟨he, hx⟩ := Prod.mk.injEq .. ▸ Option.some.inj h
          refine ⟨fun _ => ⟨.initCall :: .showCall :: levs, ?_, ?_⟩, fun hexe => ?_⟩
          · rw [← he]
          · simp [hno]
          · rw [← hx] at hexe; exact absurd hexe (by simp)
        | cancel =>
          obtain ⟨he, hx⟩ := Prod.mk.injEq .. ▸ Option.some.inj h
          refine ⟨fun _ => ⟨.initCall :: .showCall :: levs, ?_, ?_⟩, fun hexe => ?_⟩
          · rw [← he]
          · simp [hno]
          · rw [← hx] at hexe; exact absurd hexe (by simp)
        | error =>
          obtain ⟨he, hx⟩ := Prod.mk.injEq .. ▸ Option.some.inj h
          refine ⟨fun hexe => ?_, fun _ => ?_⟩
          · rw [← hx] at hexe; exact absurd hexe (by simp)
          · rw [← he]; simp [hno]

/-- Witness for the amended C2: a one-step, one-cycle run with no raising
hooks finishes with the teardown block at the end of its trace. -/
theorem C2_cleanup_exactly_once_unless_error_witness :
    run ⟨.ok, .ok, fun _ _ => .ok true, fun _ _ => .ok, fun _ _ => false⟩ 1 1 1
      = some ([.initCall, .showCall, .updateCall 0 0, .showCall, .sleepCall 0 0,
               .shutdownHook, .clearStrip, .showCall, .releaseTransport],
              .finished) ∧
    ((RunExit.finished = RunExit.finished →
      ∃ pre, [Event.initCall, Event.showCall, Event.updateCall 0 0,
              Event.showCall, Event.sleepCall 0 0, Event.shutdownHook,
              Event.clearStrip, Event.showCall, Event.releaseTransport]
        = pre ++ cleanup_events ∧ Event.shutdownHook ∉ pre) ∧
     (RunExit.finished = RunExit.errored →
      Event.shutdownHook ∉
        [Event.initCall, Event.showCall, Event.updateCall 0 0,
         Event.showCall, Event.sleepCall 0 0, Event.shutdownHook,
         Event.clearStrip, Event.showCall, Event.releaseTransport])) :=
  ⟨rfl,
    C2_cleanup_exactly_once_unless_error
      ⟨.ok, .ok, fun _ _ => .ok true, fun _ _ => .ok, fun _ _ => false⟩ 1 1 1
      _ _ rfl⟩

/-- An environment in which no call raises: the `update` hook at `(s, c)`
returns normally with repaint flag `rep s c`. -/
def calmBehavior (rep : Nat → Nat → Bool) : Behavior :=
  { initOutcome := .ok
    firstShow := .ok
    update := fun s c => .ok (rep s c)
    showAt := fun _ _ => .ok
    sleepCancel := fun _ _ => .false }

/-- The hook outcomes of a calm environment, stated without unfolding the
behavior record. -/
lemma calm_update (rep : Nat → Nat → Bool) (s c : Nat) :
    (calmBehavior rep).update s c = .ok (rep s c) := rfl

lemma calm_showAt (rep : Nat → Nat → Bool) (s c : Nat) :
    (calmBehavior rep).showAt s c = .ok := rfl

lemma calm_sleepCancel (rep : Nat → Nat → Bool) (s c : Nat) :
    (calmBehavior rep).sleepCancel s c = false := rfl

/-- Under a calm environment one cycle completes all its steps and its update
calls enumerate `(s, cycle)` for `s` over the step list, in order. -/
lemma stepLoop_calm (rep : Nat → Nat → Bool) (cycle : Nat) (steps : List Nat) :
    (stepLoop (calmBehavior rep) cycle steps).2 = .done ∧
    (stepLoop (calmBehavior rep) cycle steps).1.filterMap updateArgs
      = steps.map (fun s => (s, cycle)) := by
  induction steps with
  | nil => exact ⟨rfl, rfl⟩
  | cons s rest ih =>
    obtain ⟨h1, h2⟩ := ih
    cases hr : rep s cycle
    · constructor
      · simp [stepLoop, calm_update, calm_showAt, calm_sleepCancel, hr, h1]
      · simp [stepLoop, calm_update, calm_showAt, calm_sleepCancel, hr,
          updateArgs, h2]
    · constructor
      · simp [stepLoop, calm_update, calm_showAt, calm_sleepCancel, hr, h1]
      · simp [stepLoop, calm_update, calm_showAt, calm_sleepCancel, hr,
          updateArgs, h2]

/-- Under a calm environment, with enough fuel, the cycle loop finishes
normally and its update calls enumerate `(s, c)` for `c` from the entry
cycle up to `num_cycles - 1`, each with `s` over `0 .. num_steps - 1`. -/
lemma cycleLoop_calm (rep : Nat → Nat → Bool) (numSteps : Nat) (k : Int) :
    ∀ (fuel cycle : Nat), (cycle : Int) < k → k ≤ (cycle : Int) + (fuel : Int) →
      ∃ evs, cycleLoop (calmBehavior rep) numSteps k fuel cycle
          = some (evs, .done) ∧
        evs.filterMap updateArgs
          = (List.range' cycle (k.toNat - cycle)).bind
              (fun c => (List.range numSteps).map (fun s => (s, c))) := by
  intro fuel
  induction fuel with
  | zero =>
    intro cycle h1 h2
    omega
  | succ fuel ih =>
    intro cycle h1 h2
    obtain ⟨hs2, hsf⟩ := stepLoop_calm rep cycle (List.range numSteps)
    by_cases hbreak : k ≤ ((cycle + 1 : Nat) : Int)
    · refine ⟨(stepLoop (calmBehavior rep) cycle (List.range numSteps)).1, ?_, ?_⟩
      · simp only [cycleLoop, hs2]
        rw [if_pos ⟨by omega, hbreak⟩]
      · have hone : k.toNat - cycle = 1 := by omega
        rw [hsf, hone]
        simp
    · obtain ⟨evs2, hrec, hf2⟩ := ih (cycle + 1) (by omega) (by omega)
      refine ⟨(stepLoop (calmBehavior rep) cycle (List.range numSteps)).1 ++ evs2,
        ?_, ?_⟩
      · simp only [cycleLoop, hs2]
        rw [if_neg (by omega), hrec]
      · rw [List.filterMap_append, hsf, hf2]
        have hsplit : k.toNat - cycle = (k.toNat - (cycle + 1)) + 1 := by omega
        rw [hsplit, List.range'_succ]
        simp

lemma calm_initOutcome (rep : Nat → Nat → Bool) :
    (calmBehavior rep).initOutcome = .ok := rfl

lemma calm_firstShow (rep : Nat → Nat → Bool) :
    (calmBehavior rep).firstShow = .ok := rfl

/-- C3: with `num_steps_per_cycle = 5` and `num_cycles = 3`, an uncancelled,
error-free `run()` (any repaint flags) calls the update hook exactly 15
times, with `(step, cycle)` arguments enumerating
`(0,0) … (4,0), (0,1) … (4,1), (0,2) … (4,2)` in exactly that order, and the
teardown block (`cleanup()`) runs exactly once, after the 15th call, at the
very end of the trace. -/
theorem C3_fifteen_updates_in_order_then_cleanup (rep : Nat → Nat → Bool) :
    ∃ pre,
      run (calmBehavior rep) 5 3 3 = some (pre ++ cleanup_events, .finished) ∧
      pre.filterMap updateArgs
        = [(0, 0), (1, 0), (2, 0), (3, 0), (4, 0),
           (0, 1), (1, 1), (2, 1), (3, 1), (4, 1),
           (0, 2), (1, 2), (2, 2), (3, 2), (4, 2)] ∧
      Event.shutdownHook ∉ pre := by
  obtain ⟨evs, hc, hf⟩ := cycleLoop_calm rep 5 3 3 0 (by omega) (by omega)
  refine ⟨.initCall :: .showCall :: evs, ?_, ?_, ?_⟩
  · unfold run
    simp only [calm_initOutcome, calm_firstShow, hc]
  · simp only [List.filterMap_cons, updateArgs, hf]
    rfl
  · have hno := cycleLoop_no_shutdown (calmBehavior rep) 5 3 3 0 evs .done hc
    simp [hno]
